import Mathlib

/-!
Shallow embedding of the pipeline composers in rising/transforms/compose.py.
A batch travelling through the pipeline is either positional data (the tuple
of positional arguments) or named data (the dict of keyword arguments).
Transforms are callables on the named fields.  Randomness is passed in
explicitly: the in-place shuffling of the order list is modelled by a
function argument standing for one draw of random.shuffle, and the dropout
sampler's draws are an explicit list argument, one value per transform.
-/

variable {α : Type}

/-- Data passed through the pipeline: either positional (sequence-like,
the tuple of positional arguments) or named (mapping-like, the dict of
keyword arguments with string keys). -/
inductive Batch (α : Type) where
  | seqLike : List α → Batch α
  | mapLike : List (String × α) → Batch α
deriving DecidableEq

/-- A transform callable: receives the named fields of a mapping batch and
returns a transformed batch. -/
def Tr (α : Type) : Type := List (String × α) → Batch α

/-- One positional constructor argument of Compose: either a single
transform or a sequence of transforms.  A sequence element stored in the
transform list (after being wrapped) is not callable. -/
inductive TransformArg (α : Type) where
  | t : Tr α → TransformArg α
  | seq : List (Tr α) → TransformArg α

/-- Runtime errors a forward call can raise. -/
inductive ComposeError where
  | assertionError
  | attributeError
  | typeError
  | indexError
deriving DecidableEq

/-- Construction-time errors.  The type error for a mismatched dropout
sequence carries the two lengths named in the message: the number of
provided probabilities and the number of transforms. -/
inductive InitError where
  | indexError : InitError
  | typeError : Nat → Nat → InitError
deriving DecidableEq

/-- The type of a pluggable call adapter (the transform_call argument). -/
def TransformCall (α : Type) : Type :=
  Batch α → TransformArg α → Except ComposeError (Batch α)

/-- dict_call unpacks the batch into the transform as keyword arguments:
transform(**batch).  Unpacking with ** requires a mapping batch, and a
wrapped sequence stored in the transform list is not callable; both
failures are TypeErrors. -/
def dict_call : TransformCall α := fun batch transform =>
  match batch, transform with
  | Batch.mapLike m, TransformArg.t f => Except.ok (f m)
  | Batch.seqLike _, _ => Except.error ComposeError.typeError
  | Batch.mapLike _, TransformArg.seq _ => Except.error ComposeError.typeError

/-- State of a Compose instance: the wrapped transform list, the order
index list, the shuffle flag and the call adapter. -/
structure Compose (α : Type) where
  transforms : List (TransformArg α)
  transform_order : List Nat
  shuffle : Bool
  transform_call : TransformCall α

/-- The transforms setter: stores the list and resets transform_order to
the identity permutation over its length. -/
def Compose.setTransforms (c : Compose α) (ts : List (TransformArg α)) :
    Compose α :=
  { c with transforms := ts, transform_order := List.range ts.length }

/-- The shuffle setter: stores the flag and resets transform_order to the
identity permutation over the current number of transforms. -/
def Compose.setShuffle (c : Compose α) (b : Bool) : Compose α :=
  { c with shuffle := b, transform_order := List.range c.transforms.length }

/-- Argument handling at the top of Compose's constructor: transforms[0]
is indexed (IndexError on an empty argument tuple) and, when it is a
sequence, it replaces the whole argument tuple. -/
def flattenArgs (args : List (TransformArg α)) :
    Except InitError (List (TransformArg α)) :=
  match args with
  | [] => Except.error InitError.indexError
  | TransformArg.seq l :: _ => Except.ok (l.map TransformArg.t)
  | a :: rest => Except.ok (a :: rest)

/-- Compose's constructor: flatten a leading sequence argument, run the
transforms setter (identity order), store the call adapter, run the
shuffle setter (identity order again). -/
def Compose.init (args : List (TransformArg α)) (sh : Bool)
    (tc : TransformCall α) : Except InitError (Compose α) :=
  match flattenArgs args with
  | Except.error e => Except.error e
  | Except.ok ts =>
      Except.ok { transforms := ts, transform_order := List.range ts.length,
                  shuffle := sh, transform_call := tc }

/-- The loop body of Compose.forward: for idx in order, data becomes
transform_call(data, transforms[idx]); exceptions propagate. -/
def Compose.runTransforms (tc : TransformCall α) (ts : List (TransformArg α))
    (order : List Nat) (data : Batch α) : Except ComposeError (Batch α) :=
  match order with
  | [] => Except.ok data
  | idx :: rest =>
    match ts[idx]? with
    | none => Except.error ComposeError.indexError
    | some t =>
      match tc data t with
      | Except.error e => Except.error e
      | Except.ok d => Compose.runTransforms tc ts rest d

/-- Compose.forward.  The shuffleFn argument is the oracle for one draw of
random.shuffle: applied to the current order list, it yields the freshly
shuffled list (always a permutation of its input).  The mutated composer
state is returned alongside the result, since random.shuffle permutes
self.transform_order in place. -/
def Compose.forward (c : Compose α) (shuffleFn : List Nat → List Nat)
    (seq_like : List α) (map_like : List (String × α)) :
    Except ComposeError (Batch α) × Compose α :=
  if !seq_like.isEmpty && !map_like.isEmpty then
    (Except.error ComposeError.assertionError, c)
  else if c.transforms.length ≠ c.transform_order.length then
    (Except.error ComposeError.assertionError, c)
  else
    let data : Batch α :=
      if seq_like.isEmpty then Batch.mapLike map_like
      else Batch.seqLike seq_like
    let order : List Nat :=
      if c.shuffle then shuffleFn c.transform_order else c.transform_order
    (Compose.runTransforms c.transform_call c.transforms order data,
     { c with transform_order := order })

/-- The dropout configuration argument: a scalar to be broadcast, or one
probability per transform. -/
inductive DropoutArg where
  | scalar : ℚ → DropoutArg
  | seq : List ℚ → DropoutArg

/-- State of a DropoutCompose instance.  The dropout field is an Option
because the constructor in the source validates its dropout argument but
never assigns self.dropout; reading the absent attribute in forward is an
AttributeError. -/
structure DropoutCompose (α : Type) extends Compose α where
  dropout : Option (List ℚ)

/-- DropoutCompose's constructor.  It forwards its whole argument tuple to
Compose as a single positional argument; that tuple is a sequence, so
Compose's flattening unpacks it back and the stored transforms are exactly
the original arguments.  A scalar dropout is broadcast to one entry per
transform; a sequence of the wrong length raises a TypeError naming the
number of probabilities found and the number of transforms.  No assignment
to the dropout attribute is made, mirroring the source. -/
def DropoutCompose.init (args : List (TransformArg α)) (dropout : DropoutArg)
    (sh : Bool) (tc : TransformCall α) :
    Except InitError (DropoutCompose α) :=
  let base : Compose α :=
    { transforms := args, transform_order := List.range args.length,
      shuffle := sh, transform_call := tc }
  let d : List ℚ :=
    match dropout with
    | DropoutArg.scalar x => List.replicate args.length x
    | DropoutArg.seq l => l
  if d.length ≠ args.length then
    Except.error (InitError.typeError d.length args.length)
  else
    Except.ok { toCompose := base, dropout := none }

/-- The loop body of DropoutCompose.forward: for idx in order, the fresh
draw rand[idx] is read, then the dropout attribute (AttributeError when it
was never assigned), then its entry; the transform is applied only when
the draw strictly exceeds the threshold, otherwise the data passes through
unchanged. -/
def DropoutCompose.runGate (tc : TransformCall α) (ts : List (TransformArg α))
    (dropout : Option (List ℚ)) (rand : List ℚ) (order : List Nat)
    (data : Batch α) : Except ComposeError (Batch α) :=
  match order with
  | [] => Except.ok data
  | idx :: rest =>
    match rand[idx]? with
    | none => Except.error ComposeError.indexError
    | some r =>
      match dropout with
      | none => Except.error ComposeError.attributeError
      | some ds =>
        match ds[idx]? with
        | none => Except.error ComposeError.indexError
        | some thr =>
          if thr < r then
            match ts[idx]? with
            | none => Except.error ComposeError.indexError
            | some t =>
              match tc data t with
              | Except.error e => Except.error e
              | Except.ok d2 =>
                  DropoutCompose.runGate tc ts dropout rand rest d2
          else DropoutCompose.runGate tc ts dropout rand rest data

/-- DropoutCompose.forward.  The rand argument is the oracle for the
sampler draws (self.prob), one fresh value per transform.  The body never
reads the shuffle flag and never writes any field, so no state is
returned: the instance is unchanged. -/
def DropoutCompose.forward (c : DropoutCompose α) (rand : List ℚ)
    (seq_like : List α) (map_like : List (String × α)) :
    Except ComposeError (Batch α) :=
  if !seq_like.isEmpty && !map_like.isEmpty then
    Except.error ComposeError.assertionError
  else if c.transforms.length ≠ c.transform_order.length then
    Except.error ComposeError.assertionError
  else
    let data : Batch α :=
      if seq_like.isEmpty then Batch.mapLike map_like
      else Batch.seqLike seq_like
    DropoutCompose.runGate c.transform_call c.transforms c.dropout rand
      c.transform_order data

/-- Spec-side definition, written from the spec wording for refinement:
apply the transforms in exact list order, feeding each transform's output
to the next. -/
def applyInListOrder (tc : TransformCall α) :
    List (TransformArg α) → Batch α → Except ComposeError (Batch α)
  | [], d => Except.ok d
  | t :: ts, d =>
    match tc d t with
    | Except.error e => Except.error e
    | Except.ok d2 => applyInListOrder tc ts d2

/-- Transform A of the spec example: adds 1 to the field x. -/
def addOneTr : Tr Int := fun m =>
  Batch.mapLike (m.map (fun p => if p.1 = "x" then (p.1, p.2 + 1) else p))

/-- Transform B of the spec example: doubles the field x. -/
def doubleTr : Tr Int := fun m =>
  Batch.mapLike (m.map (fun p => if p.1 = "x" then (p.1, 2 * p.2) else p))

/-- The DropoutCompose instance constructed from one transform with scalar
dropout 0: no dropout attribute is stored. -/
def dc1 : DropoutCompose Int :=
  { toCompose :=
      { transforms := [TransformArg.t addOneTr],
        transform_order := List.range 1, shuffle := false,
        transform_call := dict_call },
    dropout := none }

/-- Claim C1: the claimed gating (apply transform i iff its draw strictly
exceeds its threshold, else pass the batch through) never happens, because
the constructor validates the dropout argument but never assigns the
dropout attribute; with one transform, threshold 0 and draw 1/2 the claim
requires the transform to run, but forward raises AttributeError. -/
theorem dropout_gate_attribute_error :
    DropoutCompose.init [TransformArg.t addOneTr] (DropoutArg.scalar 0)
        false dict_call = Except.ok dc1 ∧
    DropoutCompose.forward dc1 [1/2] [] [("x", (1 : Int))]
      = Except.error ComposeError.attributeError :=
  ⟨rfl, rfl⟩

/-- The DropoutCompose instance constructed from one transform with scalar
dropout 1: the stored state is the same, the dropout attribute is absent. -/
def dc2 : DropoutCompose Int :=
  { toCompose :=
      { transforms := [TransformArg.t addOneTr],
        transform_order := List.range 1, shuffle := false,
        transform_call := dict_call },
    dropout := none }

/-- Claim C2: with dropout 1 for all transforms and a draw of 1/2 in
[0,1), the claim requires the batch to be returned unchanged; instead
forward raises AttributeError because the dropout attribute was never
assigned by the constructor. -/
theorem dropout_one_attribute_error :
    DropoutCompose.init [TransformArg.t addOneTr] (DropoutArg.scalar 1)
        false dict_call = Except.ok dc2 ∧
    DropoutCompose.forward dc2 [1/2] [] [("x", (1 : Int))]
      = Except.error ComposeError.attributeError :=
  ⟨rfl, rfl⟩

/-- A DropoutCompose over two transforms with the shuffle flag set. -/
def dc3 : DropoutCompose Int :=
  { toCompose :=
      { transforms := [TransformArg.t addOneTr, TransformArg.t doubleTr],
        transform_order := List.range 2, shuffle := true,
        transform_call := dict_call },
    dropout := none }

/-- Claim C3: DropoutCompose.forward never reshuffles the order — its body
never reads the shuffle flag, so the flag's value is irrelevant to the
result — and a concrete shuffled instance does not apply transforms in any
order at all: it raises AttributeError on the unassigned dropout
attribute. -/
theorem dropout_shuffle_flag_ignored :
    (∀ (c : DropoutCompose α) (rand : List ℚ) (s : List α)
        (m : List (String × α)),
      DropoutCompose.forward
          { c with toCompose := { c.toCompose with shuffle := true } }
          rand s m
        = DropoutCompose.forward
          { c with toCompose := { c.toCompose with shuffle := false } }
          rand s m) ∧
    DropoutCompose.init
        [TransformArg.t addOneTr, TransformArg.t doubleTr]
        (DropoutArg.scalar (1/2)) true dict_call = Except.ok dc3 ∧
    DropoutCompose.forward dc3 [9/10, 9/10] [] [("x", (1 : Int))]
      = Except.error ComposeError.attributeError :=
  ⟨fun _ _ _ _ => rfl, rfl, rfl⟩

/-- Claim C4: a dropout sequence whose length differs from the number of
transforms fails construction with a TypeError carrying both lengths,
while a scalar dropout is broadcast and construction succeeds. -/
theorem dropout_length_check (args : List (TransformArg α)) (d : List ℚ)
    (x : ℚ) (sh : Bool) (tc : TransformCall α)
    (hne : d.length ≠ args.length) :
    DropoutCompose.init args (DropoutArg.seq d) sh tc
      = Except.error (InitError.typeError d.length args.length) ∧
    ∃ c, DropoutCompose.init args (DropoutArg.scalar x) sh tc
      = Except.ok c := by
  constructor
  · simp [DropoutCompose.init, hne]
  · exact ⟨{ toCompose :=
               { transforms := args,
                 transform_order := List.range args.length,
                 shuffle := sh, transform_call := tc },
             dropout := none }, by simp [DropoutCompose.init]⟩

/-- Witness for dropout_length_check: one transform, two probabilities. -/
theorem dropout_length_check_witness :
    DropoutCompose.init [TransformArg.t doubleTr] (DropoutArg.seq [0, 1])
        false dict_call = Except.error (InitError.typeError 2 1) ∧
    ∃ c, DropoutCompose.init [TransformArg.t doubleTr]
        (DropoutArg.scalar (1/2)) false dict_call = Except.ok c :=
  dropout_length_check [TransformArg.t doubleTr] [0, 1] (1/2) false
    dict_call (by decide)

/-- Claim C5: invoking forward with both positional and keyword data hits
the assertion at the top of forward before any transform is applied, for
Compose and DropoutCompose alike. -/
theorem both_inputs_assert (c : Compose α) (dc : DropoutCompose α)
    (f : List Nat → List Nat) (rand : List ℚ)
    (s : List α) (m : List (String × α)) (hs : s ≠ []) (hm : m ≠ []) :
    (Compose.forward c f s m).1 = Except.error ComposeError.assertionError ∧
    DropoutCompose.forward dc rand s m
      = Except.error ComposeError.assertionError := by
  cases s with
  | nil => exact absurd rfl hs
  | cons a as =>
    cases m with
    | nil => exact absurd rfl hm
    | cons b bs => exact ⟨rfl, rfl⟩

/-- A concrete Compose instance for the C5 witness. -/
def c5c : Compose Int :=
  { transforms := [TransformArg.t addOneTr], transform_order := [0],
    shuffle := false, transform_call := dict_call }

/-- A concrete DropoutCompose instance for the C5 witness. -/
def dc5c : DropoutCompose Int :=
  { toCompose :=
      { transforms := [TransformArg.t addOneTr], transform_order := [0],
        shuffle := false, transform_call := dict_call },
    dropout := none }

/-- Witness for both_inputs_assert at a call with one positional and one
keyword argument. -/
theorem both_inputs_assert_witness :
    (Compose.forward c5c (fun l => l) [0] [("x", 0)]).1
      = Except.error ComposeError.assertionError ∧
    DropoutCompose.forward dc5c [0] [0] [("x", 0)]
      = Except.error ComposeError.assertionError :=
  both_inputs_assert c5c dc5c (fun l => l) [0] [0] [("x", 0)]
    (by decide) (by decide)

/-- Traversing the identity order over the full transform list is the same
as folding the transforms in list order. -/
theorem runTransforms_range (tc : TransformCall α) :
    ∀ (ts : List (TransformArg α)) (pre : List (TransformArg α))
      (d : Batch α),
      Compose.runTransforms tc (pre ++ ts)
          (List.range' pre.length ts.length) d
        = applyInListOrder tc ts d := by
  intro ts
  induction ts with
  | nil => intro pre d; rfl
  | cons t ts ih =>
    intro pre d
    rw [List.length_cons, List.range'_succ]
    show (match (pre ++ t :: ts)[pre.length]? with
          | none => Except.error ComposeError.indexError
          | some u =>
            match tc d u with
            | Except.error e => Except.error e
            | Except.ok d2 =>
                Compose.runTransforms tc (pre ++ t :: ts)
                  (List.range' (pre.length + 1) ts.length) d2)
        = applyInListOrder tc (t :: ts) d
    have hget : (pre ++ t :: ts)[pre.length]? = some t := by
      rw [List.getElem?_append_right (Nat.le_refl pre.length)]
      simp
    rw [hget]
    show (match tc d t with
          | Except.error e => Except.error e
          | Except.ok d2 =>
              Compose.runTransforms tc (pre ++ t :: ts)
                (List.range' (pre.length + 1) ts.length) d2)
        = applyInListOrder tc (t :: ts) d
    have hrest : ∀ d2, Compose.runTransforms tc (pre ++ t :: ts)
        (List.range' (pre.length + 1) ts.length) d2
          = applyInListOrder tc ts d2 := by
      intro d2
      have h1 : pre ++ t :: ts = (pre ++ [t]) ++ ts := by simp
      have h2 : pre.length + 1 = (pre ++ [t]).length := by simp
      rw [h1, h2, ih (pre ++ [t]) d2]
    cases htc : tc d t with
    | error e => simp [applyInListOrder, htc]
    | ok d2 => simp [applyInListOrder, htc, hrest d2]

/-- Claim C6: both setters (and construction, which runs them) reset the
order to the identity permutation over the transform count, so its length
equals the number of transforms; and forward preserves that equality,
since random.shuffle replaces the order by a permutation of it. -/
theorem order_identity_invariant :
    (∀ (c : Compose α) (ts : List (TransformArg α)),
      (c.setTransforms ts).transform_order
        = List.range (c.setTransforms ts).transforms.length) ∧
    (∀ (c : Compose α) (b : Bool),
      (c.setShuffle b).transform_order
        = List.range (c.setShuffle b).transforms.length) ∧
    (∀ (args : List (TransformArg α)) (sh : Bool) (tc : TransformCall α)
        (c : Compose α), Compose.init args sh tc = Except.ok c →
      c.transform_order = List.range c.transforms.length) ∧
    (∀ (c : Compose α) (f : List Nat → List Nat) (s : List α)
        (m : List (String × α)),
      (∀ l, (f l).Perm l) →
      c.transform_order.length = c.transforms.length →
      (Compose.forward c f s m).2.transform_order.length
        = (Compose.forward c f s m).2.transforms.length) := by
  refine ⟨fun c ts => rfl, fun c b => rfl, ?_, ?_⟩
  · intro args sh tc c h
    unfold Compose.init at h
    cases hfa : flattenArgs args with
    | error e =>
        rw [hfa] at h
        exact Except.noConfusion h
    | ok ts =>
        rw [hfa] at h
        injection h with h2
        subst h2
        rfl
  · intro c f s m hf hlen
    unfold Compose.forward
    split
    · exact hlen
    · split
      · exact hlen
      · by_cases hsh : c.shuffle
        · simp [hsh, (hf c.transform_order).length_eq, hlen]
        · simp [hsh, hlen]

/-- A concrete composer, equal to the result of construction from one
transform, for the C6 witness. -/
def c6c : Compose Int :=
  { transforms := [TransformArg.t addOneTr],
    transform_order := List.range 1, shuffle := false,
    transform_call := dict_call }

/-- Witness for order_identity_invariant: the construction part at a
concrete one-transform composer and the forward part with the reversing
permutation as the shuffle draw. -/
theorem order_identity_invariant_witness :
    c6c.transform_order = List.range c6c.transforms.length ∧
    (Compose.forward c6c (fun l => List.reverse l) []
        [("x", (0 : Int))]).2.transform_order.length
      = (Compose.forward c6c (fun l => List.reverse l) []
        [("x", (0 : Int))]).2.transforms.length :=
  ⟨order_identity_invariant.2.2.1 [TransformArg.t addOneTr] false
      dict_call c6c rfl,
   order_identity_invariant.2.2.2 c6c (fun l => List.reverse l) []
      [("x", (0 : Int))] (fun l => List.reverse_perm l) rfl⟩

/-- The spec example composer: transforms [A, B] with shuffle disabled and
the default call adapter, as produced by construction. -/
def cAB : Compose Int :=
  { transforms := [TransformArg.t addOneTr, TransformArg.t doubleTr],
    transform_order := List.range 2, shuffle := false,
    transform_call := dict_call }

/-- Claim C7: with shuffle disabled (so the order is the identity left by
the setters), forward applies the transforms in exact list order, feeding
each output to the next, leaves the composer unchanged, and on the example
[A, B] with input x = 1 produces x = 4. -/
theorem list_order_application (c : Compose α) (f : List Nat → List Nat)
    (m : List (String × α)) (hsh : c.shuffle = false)
    (hord : c.transform_order = List.range c.transforms.length) :
    (Compose.forward c f [] m).1
        = applyInListOrder c.transform_call c.transforms (Batch.mapLike m) ∧
    (Compose.forward c f [] m).2 = c ∧
    (Compose.forward cAB (fun l => l) [] [("x", (1 : Int))]).1
      = Except.ok (Batch.mapLike [("x", 4)]) := by
  refine ⟨?_, ?_, rfl⟩
  · unfold Compose.forward
    rw [if_neg (by simp), if_neg (by simp [hord])]
    simp only [hsh, List.isEmpty_nil, Bool.false_eq_true, if_true, if_false]
    rw [hord, List.range_eq_range']
    exact runTransforms_range c.transform_call c.transforms []
      (Batch.mapLike m)
  · unfold Compose.forward
    rw [if_neg (by simp), if_neg (by simp [hord])]
    simp only [hsh, Bool.false_eq_true, if_false]
    rw [← hsh]

/-- Witness for list_order_application at the example composer. -/
theorem list_order_application_witness :
    (Compose.forward cAB (fun l => l) [] [("x", (1 : Int))]).1
        = applyInListOrder cAB.transform_call cAB.transforms
            (Batch.mapLike [("x", 1)]) ∧
    (Compose.forward cAB (fun l => l) [] [("x", (1 : Int))]).2 = cAB :=
  ⟨(list_order_application cAB (fun l => l) [("x", 1)] rfl rfl).1,
   (list_order_application cAB (fun l => l) [("x", 1)] rfl rfl).2.1⟩

/-- A shuffled composer over two transforms for the C8 counterexample. -/
def c8c : Compose Int :=
  { transforms := [TransformArg.t addOneTr, TransformArg.t doubleTr],
    transform_order := [0, 1], shuffle := true,
    transform_call := dict_call }

/-- Claim C8 as stated is false: with shuffle enabled, forward hands the
order list to random.shuffle, which permutes it in place.  Reversal is a
legal outcome of random.shuffle on [0, 1], and after that call the stored
order differs from the order before the call. -/
theorem forward_mutates_order_counterexample :
    (List.reverse [0, 1]).Perm [0, 1] ∧
    (Compose.forward c8c List.reverse []
        [("x", (1 : Int))]).2.transform_order
      ≠ c8c.transform_order :=
  ⟨List.reverse_perm _, by decide⟩

/-- Claim C8, amended: forward never changes the transform list, the
shuffle flag or the call adapter; with shuffle disabled it leaves the
whole state unchanged; with shuffle enabled and the call contract
satisfied it replaces transform_order by the freshly drawn shuffle of it
(the in-place random.shuffle), so the order is mutated by shuffled forward
calls as well as by the setters. -/
theorem forward_state_effects (c : Compose α) (f : List Nat → List Nat)
    (s : List α) (m : List (String × α)) :
    ((Compose.forward c f s m).2.transforms = c.transforms ∧
     (Compose.forward c f s m).2.shuffle = c.shuffle ∧
     (Compose.forward c f s m).2.transform_call = c.transform_call) ∧
    (c.shuffle = false → (Compose.forward c f s m).2 = c) ∧
    (c.shuffle = true → c.transforms.length = c.transform_order.length →
      (Compose.forward c f [] m).2.transform_order
        = f c.transform_order) := by
  have h2 : (Compose.forward c f s m).2 = c ∨
      (Compose.forward c f s m).2
        = { c with transform_order :=
              if c.shuffle then f c.transform_order
              else c.transform_order } := by
    unfold Compose.forward
    split
    · exact Or.inl rfl
    · split
      · exact Or.inl rfl
      · exact Or.inr rfl
  refine ⟨?_, ?_, ?_⟩
  · rcases h2 with h | h <;> rw [h] <;> exact ⟨rfl, rfl, rfl⟩
  · intro hsh
    rcases h2 with h | h
    · exact h
    · rw [h, if_neg (by simp [hsh])]
  · intro hsh hlen
    unfold Compose.forward
    rw [if_neg (by simp), if_neg (by simp [hlen]), if_pos hsh]

/-- An unshuffled composer for the C8 witness. -/
def c8w : Compose Int :=
  { transforms := [TransformArg.t addOneTr], transform_order := [0],
    shuffle := false, transform_call := dict_call }

/-- Witness for forward_state_effects: the unchanged-state part at an
unshuffled composer and the order-replacement part at a shuffled one. -/
theorem forward_state_effects_witness :
    (Compose.forward c8w (fun l => l) [] [("x", (0 : Int))]).2 = c8w ∧
    (Compose.forward c8c List.reverse []
        [("x", (0 : Int))]).2.transform_order
      = List.reverse c8c.transform_order :=
  ⟨(forward_state_effects c8w (fun l => l) [] [("x", 0)]).2.1 rfl,
   (forward_state_effects c8c List.reverse [] [("x", 0)]).2.2 rfl rfl⟩

/-- Claim C9: constructing Compose from an empty argument list raises the
IndexError from indexing transforms[0], and any successful construction
was given at least one argument. -/
theorem empty_args_index_error (sh : Bool) (tc : TransformCall α) :
    Compose.init ([] : List (TransformArg α)) sh tc
      = Except.error InitError.indexError ∧
    ∀ (args : List (TransformArg α)) (c : Compose α),
      Compose.init args sh tc = Except.ok c → args ≠ [] := by
  constructor
  · rfl
  · intro args c h hargs
    subst hargs
    exact Except.noConfusion h

/-- The composer built from one transform, for the C9 witness. -/
def c9c : Compose Int :=
  { transforms := [TransformArg.t addOneTr],
    transform_order := List.range 1, shuffle := false,
    transform_call := dict_call }

/-- Witness for empty_args_index_error. -/
theorem empty_args_index_error_witness :
    Compose.init ([] : List (TransformArg Int)) false dict_call
      = Except.error InitError.indexError ∧
    ([TransformArg.t addOneTr] : List (TransformArg Int)) ≠ [] :=
  ⟨(empty_args_index_error false dict_call).1,
   (empty_args_index_error false dict_call).2 [TransformArg.t addOneTr]
     c9c rfl⟩

/-- Claim C10: when the first positional constructor argument is a
sequence, every later positional argument is silently discarded — the
construction result is identical to construction from the sequence alone,
and the stored transform list is exactly the sequence. -/
theorem seq_first_discards_rest (s : List (Tr α)) (u : Tr α) (sh : Bool)
    (tc : TransformCall α) :
    Compose.init [TransformArg.seq s, TransformArg.t u] sh tc
      = Compose.init [TransformArg.seq s] sh tc ∧
    Except.map (fun c => c.transforms)
        (Compose.init [TransformArg.seq s, TransformArg.t u] sh tc)
      = Except.ok (s.map TransformArg.t) :=
  ⟨rfl, rfl⟩
